import Mathlib

/-!
# Verification of the rid-kit CV/bias-script core

Shallow embedding of `src/rid/common/plumed/make_plumed.py`,
`src/rid/op/run_select.py` and `src/rid/entrypoint/resubmit.py`.

Python strings are modelled as Lean `String`; the handful of Python string
operations the code uses (`in`, `split(sep)`, `split()`, `strip`, `join`)
are re-implemented below by structural recursion on the character list so
that every definition evaluates inside the kernel.

Python exceptions are modelled by the inductive type `Err` below and
fallible code returns `Except Err α`.  External collaborators whose code is
not part of the inspected slice (file reading, trajectory slicing, model
evaluation) are modelled by passing their *results* as explicit arguments.
-/

namespace RidKit

/-! ## Python-style string primitives (structural, kernel-reducible) -/

/-- Python whitespace characters (the ones `str.strip`/`str.split()` use). -/
def isPyWs (c : Char) : Bool :=
  c = ' ' || c = '\t' || c = '\n' || c = '\r' || c = '\x0b' || c = '\x0c'

/-- If `pat` is a leading segment of `l`, return the remainder. -/
def stripLead : List Char → List Char → Option (List Char)
  | [], l => some l
  | _ :: _, [] => none
  | p :: ps, c :: cs => if p = c then stripLead ps cs else none

/-- Does `l` contain `pat` as a contiguous sublist? -/
def hasSub (pat : List Char) : List Char → Bool
  | [] => pat.isEmpty
  | c :: cs => (stripLead pat (c :: cs)).isSome || hasSub pat cs

/-- Python `pat in s`. -/
def pyIn (pat s : String) : Bool := hasSub pat.data s.data

/-- Fuelled worker for `pySplit`: splits `l` on the (non-empty) separator
`sep`, keeping empty segments, exactly like Python `str.split(sep)`. -/
def splitChars (sep : List Char) : Nat → List Char → List Char → List (List Char)
  | 0, l, acc => [acc.reverse ++ l]
  | fuel + 1, l, acc =>
    match l with
    | [] => [acc.reverse]
    | c :: cs =>
      match stripLead sep l with
      | some rest => acc.reverse :: splitChars sep fuel rest []
      | none => splitChars sep fuel cs (c :: acc)

/-- Python `s.split(sep)` for a non-empty separator `sep`. -/
def pySplit (s sep : String) : List String :=
  if sep.data.isEmpty then [s]
  else (splitChars sep.data (s.data.length + 1) s.data []).map (fun cs => ⟨cs⟩)

/-- Python `s.strip()`. -/
def pyStrip (s : String) : String :=
  ⟨((s.data.dropWhile isPyWs).reverse.dropWhile isPyWs).reverse⟩

/-- Worker for `pyWsSplit`. -/
def wsSplitChars : List Char → List Char → List String
  | [], acc => if acc.isEmpty then [] else [⟨acc.reverse⟩]
  | c :: cs, acc =>
    if isPyWs c then
      if acc.isEmpty then wsSplitChars cs [] else (⟨acc.reverse⟩ : String) :: wsSplitChars cs []
    else wsSplitChars cs (c :: acc)

/-- Python `s.split()` (split on whitespace runs, dropping empty fields). -/
def pyWsSplit (s : String) : List String := wsSplitChars s.data []

/-- Python `sep.join(l)`. -/
def pyJoin (sep : String) : List String → String
  | [] => ""
  | [x] => x
  | x :: xs => x ++ sep ++ pyJoin sep xs

/-! ## Error model

Each constructor names one concrete `raise`/`assert`/runtime failure site of
the Python code; the comments give the site. -/

inductive Err where
  /-- `RuntimeError("Unknown mode for making plumed files.")`. -/
  | unknownMode
  /-- the two length asserts in `make_restraint_list` (lines 57-58). -/
  | lengthMismatch
  /-- `assert len(cv_info.keys()) > 0, "No valid CVs created."`. -/
  | invalidTopology
  /-- `RuntimeError("Invalid customed plumed files.")` in `user_plumed_def`. -/
  | invalidDefinition
  /-- the print/CV count assert in `user_plumed_def` (line 142). -/
  | printCvMismatch
  /-- a Python `IndexError` (list index out of range). -/
  | indexError
  /-- a Python `TypeError` (call with a missing required argument). -/
  | typeError
  /-- a Python `KeyError` (`angle_id[ang]` with an unknown angle kind). -/
  | keyError
  /-- the atom-count asserts in `make_torsion` / `make_distance`. -/
  | badCvAtoms
  /-- a Python `ValueError` (`int()` on a non-numeric string). -/
  | valueError
deriving DecidableEq, Repr

/-! ## Script templates

`rid/common/plumed/plumed_constant.py` and `rid/utils.list_to_string` are
repository code outside the inspected slice; the definitions in this
section are therefore modelled from the spec rather than transcribed. -/

/-- Modelled from the spec: `list_to_string` from `rid.utils` (missing from
the slice) joins the string renderings of a list with a separator sign. -/
def list_to_string (l : List String) (split_sign : String) : String :=
  pyJoin split_sign l

/-- Modelled from the spec: `dihedral_name` template — the torsion CV name
is a deterministic function of `(residue_id, angle_ordinal)` (§4.1). -/
def dihedral_name (resid angid : Nat) : String :=
  "dih-" ++ Nat.repr resid ++ "-" ++ Nat.repr angid

/-- Modelled from the spec: `distance_name` template — the distance CV name
is a deterministic function of the two atom ids in a fixed order (§4.1). -/
def distance_name (atomid1 atomid2 : Int) : String :=
  "dis-" ++ Int.repr atomid1 ++ "-" ++ Int.repr atomid2

/-- Modelled from the spec: `dihedral_def_from_atoms` template — one torsion
CV definition line over four atoms (§3 invariant). -/
def dihedral_def_from_atoms (name : String) (a1 a2 a3 a4 : Nat) : String :=
  name ++ ": TORSION ATOMS=" ++ Nat.repr a1 ++ "," ++ Nat.repr a2 ++ ","
       ++ Nat.repr a3 ++ "," ++ Nat.repr a4

/-- Modelled from the spec: `distance_def_from_atoms` template — one
distance CV definition line over two atoms (§3 invariant). -/
def distance_def_from_atoms (name : String) (a1 a2 : String) : String :=
  name ++ ": DISTANCE ATOMS=" ++ a1 ++ "," ++ a2

/-- Modelled from the spec: `restraint_def` template — one harmonic
restraint clause with a name, a target CV, a force constant and a
reference value (§3 RestraintSpec).  The numeric parameters are carried as
their Python `str` rendering, which is all that reaches the script. -/
def restraint_def (name arg kappa atv : String) : String :=
  name ++ ": RESTRAINT ARG=" ++ arg ++ " KAPPA=" ++ kappa ++ " AT=" ++ atv

/-- Modelled from the spec: `deepfe_def` template — the ensemble-bias
clause referencing two trust levels and the committee model files (§4.3). -/
def deepfe_def (trust_lvl_1 trust_lvl_2 model arg : String) : String :=
  "DEEPFE TRUST_LVL_1=" ++ trust_lvl_1 ++ " TRUST_LVL_2=" ++ trust_lvl_2
    ++ " MODEL=" ++ model ++ " ARG=" ++ arg

/-- Modelled from the spec: `print_def` template — the monitoring clause
with a stride, an argument list and an output file (§3 PrintSpec). -/
def print_def (stride : Nat) (arg file : String) : String :=
  "PRINT STRIDE=" ++ Nat.repr stride ++ " ARG=" ++ arg ++ " FILE=" ++ file

deriving instance DecidableEq for Except

/-! ## `make_plumed.py`: clause constructors -/

/-- `make_restraint` (make_plumed.py lines 36-47). -/
def make_restraint (name arg kappa atv : String) : String :=
  restraint_def name arg kappa atv

/-- `make_restraint_list` (make_plumed.py lines 49-63): builds one restraint
clause and one restraint name (`"res-" + cv`) per CV; the two length
asserts become `Err.lengthMismatch`. -/
def make_restraint_list (cv_list kappa atv : List String) :
    Except Err (List String × List String) :=
  if cv_list.length ≠ kappa.length then .error .lengthMismatch
  else if cv_list.length ≠ atv.length then .error .lengthMismatch
  else
    .ok (((List.zip cv_list (List.zip kappa atv)).map
            (fun p => make_restraint ("res-" ++ p.1) p.1 p.2.1 p.2.2)),
         cv_list.map (fun cv => "res-" ++ cv))

/-- `make_deepfe_bias` (make_plumed.py lines 66-81): empty model list
yields the empty string (no bias clause). -/
def make_deepfe_bias (cv_list : List String) (trust_lvl_1 trust_lvl_2 : String)
    (model_list : List String) : String :=
  if model_list.length = 0 then ""
  else deepfe_def trust_lvl_1 trust_lvl_2
        (list_to_string model_list ",") (list_to_string cv_list ",")

/-- `make_print` (make_plumed.py lines 84-93). -/
def make_print (name_list : List String) (stride : Nat) (file_name : String) : String :=
  print_def stride (list_to_string name_list ",") file_name

/-! ## `user_plumed_def` (make_plumed.py lines 103-153): the custom CV parser

The Python `for line in fp.readlines()` loop with its `break` at the first
monitoring directive is factored into a per-line step (`processLine`) and a
driver (`scanLines`); the input file is modelled by its list of lines. -/

/-- The loop state of `user_plumed_def`: accumulated body, accumulated CV
names, the PATH flag, and the captured monitoring directive. -/
structure ScanState where
  ret : String
  cv_names : List String
  ispath : Bool
  print_content : Option String
deriving DecidableEq, Repr

/-- Loop-entry state of `user_plumed_def`. -/
def initScan : ScanState := ⟨"", [], false, none⟩

/-- The directive test at line 111: `("PRINT" in line) and ("#" not in line)`. -/
def isPrintLine (line : String) : Bool :=
  pyIn "PRINT" line && !(pyIn "#" line)

/-- One non-directive iteration of the `user_plumed_def` loop (lines
114-137).  `Err.indexError` models `line.split("LABEL=")[1]` on a line that
contains `LABEL` but not `LABEL=`. -/
def processLine (method : String) (s : ScanState) (line : String) : Except Err ScanState :=
  let s := { s with ret := s.ret ++ line }
  if method = "restrained" then
    if pyIn ":" line = true ∧ pyIn "#" line = false then
      let parts := pySplit line ":"
      let cv_type := (pySplit (pyStrip (parts.getD 1 "")) " ").getD 0 ""
      if cv_type ≠ "PATH" ∧ s.ispath = false then
        .ok { s with cv_names := s.cv_names ++ [pyStrip (parts.getD 0 "")] }
      else if cv_type = "PATH" then
        let lab := parts.getD 0 ""
        let names := [pyStrip (lab ++ ".spath"), pyStrip (lab ++ ".zpath")]
        .ok { s with ispath := true, cv_names := names }
      else .ok s
    else if pyIn "LABEL" line = true ∧ pyIn "#" line = false then
      let parts := pySplit line "LABEL="
      let cv_type := (pySplit (pyStrip (parts.getD 0 "")) " ").getD 0 ""
      if cv_type ≠ "PATH" ∧ s.ispath = false then
        if parts.length < 2 then .error .indexError
        else .ok { s with cv_names := s.cv_names ++ [pyStrip (parts.getD 1 "")] }
      else if cv_type = "PATH" then
        if parts.length < 2 then .error .indexError
        else
          let lab := pyStrip (parts.getD 1 "")
          let names := [lab ++ ".spath", lab ++ ".zpath"]
          .ok { s with ispath := true, cv_names := names }
      else .ok s
    else .ok s
  else if method = "constrained" then
    .ok { s with cv_names := [] }
  else .ok s

/-- The `user_plumed_def` line loop (lines 110-137): stops at — and
captures — the first monitoring directive. -/
def scanLines (method : String) (s : ScanState) : List String → Except Err ScanState
  | [] => .ok s
  | line :: rest =>
    if isPrintLine line then
      .ok { s with print_content := some (line ++ "\n") }
    else do
      scanLines method (← processLine method s line) rest

/-- The stride/output rewrite of the captured directive (lines 143-146 and
149-152): Python assigns `list[-1]` then `list[1]`, so a two-token
directive loses its last field to the stride, and a one-token directive
raises `IndexError` at `list[1]`. -/
def rewriteDirective (pc : String) (pstride : Nat) (pfile : String) : Except Err String :=
  let l := pyWsSplit pc
  if l.length = 0 then .error .indexError
  else
    let l := l.set (l.length - 1) ("FILE=" ++ pfile)
    if l.length < 2 then .error .indexError
    else .ok (pyJoin " " (l.set 1 ("STRIDE=" ++ Nat.repr pstride)))

/-- `user_plumed_def` (make_plumed.py lines 103-153), over the list of
lines of the CV file. -/
def user_plumed_def (lines : List String) (pstride : Nat) (pfile : String)
    (method : String) : Except Err (String × List String × Option String) := do
  let s ← scanLines method initScan lines
  if s.ret = "" ∧ s.cv_names = [] then .error .invalidDefinition
  else
    match s.print_content with
    | none => .ok (s.ret, s.cv_names, none)
    | some pc =>
      if method = "restrained" then
        if (pySplit pc ",").length ≠ s.cv_names.length then .error .printCvMismatch
        else do
          let pc' ← rewriteDirective pc pstride pfile
          .ok (s.ret, s.cv_names, some pc')
      else if method = "constrained" then do
        let pc' ← rewriteDirective pc pstride pfile
        .ok (s.ret, s.cv_names, some pc')
      else .ok (s.ret, s.cv_names, some pc)

/-! ## CV resolver (make_plumed.py lines 156-237) -/

/-- The module-level `angle_id` dict; an unknown angle kind is a Python
`KeyError`. -/
def angle_id (ang : String) : Except Err Nat :=
  if ang = "phi" then .ok 0
  else if ang = "psi" then .ok 1
  else .error .keyError

/-- `make_torsion` (lines 156-165): the 4-atom assert becomes
`Err.badCvAtoms`. -/
def make_torsion (name : String) (atom_list : List Nat) : Except Err String :=
  if atom_list.length = 4 then
    .ok (dihedral_def_from_atoms name (atom_list.getD 0 0) (atom_list.getD 1 0)
          (atom_list.getD 2 0) (atom_list.getD 3 0))
  else .error .badCvAtoms

/-- `make_distance` (lines 167-175): the 2-atom assert becomes
`Err.badCvAtoms`. -/
def make_distance (name : String) (atom_list : List String) : Except Err String :=
  if atom_list.length = 2 then
    .ok (distance_def_from_atoms name (atom_list.getD 0 "") (atom_list.getD 1 ""))
  else .error .badCvAtoms

/-- `make_torsion_name` (lines 178-182). -/
def make_torsion_name (resid angid : Nat) : String := dihedral_name resid angid

/-- Worker for `pyInt`. -/
def parseDigits : List Char → Nat → Option Nat
  | [], acc => some acc
  | c :: cs, acc =>
    if c.isDigit then parseDigits cs (acc * 10 + (c.toNat - 48)) else none

/-- Python `int(s)` on a decimal literal; failure is a `ValueError`. -/
def pyInt (s : String) : Except Err Int :=
  match (pyStrip s).data with
  | [] => .error .valueError
  | '-' :: rest =>
    match rest, parseDigits rest 0 with
    | _ :: _, some n => .ok (-(n : Int))
    | _, _ => .error .valueError
  | l =>
    match parseDigits l 0 with
    | some n => .ok (n : Int)
    | none => .error .valueError

/-- `make_distance_name` (lines 184-188): `int(atomids[0])`,
`int(atomids[1])`; a missing second entry is a Python `IndexError`. -/
def make_distance_name (atomids : List String) : Except Err String := do
  match atomids with
  | [] => .error .indexError
  | [_] => .error .indexError
  | a0 :: a1 :: _ => do
    let i0 ← pyInt a0
    let i1 ← pyInt a1
    .ok (distance_name i0 i1)

/-- The dihedral description an external `get_dihedral_from_resid` call
returns: an insertion-ordered map `residue id ↦ (angle kind ↦ atoms)`. -/
def DihedralInfo : Type := List (Nat × List (String × List Nat))

/-- Inner loop of `make_torsion_list` (lines 196-202) over one residue's
angle map. -/
def make_torsion_angs (resid : Nat) :
    List (String × List Nat) → Except Err (List String × List String)
  | [] => .ok ([], [])
  | (ang, atoms) :: rest => do
    let angid ← angle_id ang
    let tname := make_torsion_name resid angid
    let tdef ← make_torsion tname atoms
    let (ds, ns) ← make_torsion_angs resid rest
    .ok (tdef :: ds, tname :: ns)

/-- `make_torsion_list` (lines 190-203). -/
def make_torsion_list : DihedralInfo → Except Err (List String × List String)
  | [] => .ok ([], [])
  | (resid, angs) :: rest => do
    let (d1, n1) ← make_torsion_angs resid angs
    let (d2, n2) ← make_torsion_list rest
    .ok (d1 ++ d2, n1 ++ n2)

/-- `make_distance_list` (lines 205-219) over the ordered key list of
`distance_info` (the mapped values are never used by the code). -/
def make_distance_list : List String → Except Err (List String × List String)
  | [] => .ok ([], [])
  | key :: rest => do
    let atom_list := pySplit key " "
    let dname ← make_distance_name atom_list
    let ddef ← make_distance dname atom_list
    let (ds, ns) ← make_distance_list rest
    .ok (ddef :: ds, dname :: ns)

/-- `make_torsion_list_from_file` (lines 221-228).  The structure-file read
(`get_dihedral_from_resid`) is an external collaborator, so the embedding
receives its result `cv_info`; the non-empty assert is
`Err.invalidTopology`. -/
def make_torsion_list_from_file (cv_info : DihedralInfo) :
    Except Err (List String × List String) :=
  if cv_info.length = 0 then .error .invalidTopology
  else make_torsion_list cv_info

/-- `make_distance_list_from_file` (lines 230-237), analogously over the
result of the external `get_distance_from_atomid`. -/
def make_distance_list_from_file (cv_info : List String) :
    Except Err (List String × List String) :=
  if cv_info.length = 0 then .error .invalidTopology
  else make_distance_list cv_info

/-! ## Bias Script Synthesizer entry points (make_plumed.py lines 239-347)

The file-path arguments of the Python functions (`conf`, `cv_file[0]`) are
replaced by the data obtained from them: the resolver input maps and the
list of lines of the custom CV file. -/

/-- The Python `Union[int, float, Sequence]` kappa/at argument.  A scalar
int or float is carried as its `str` rendering, which is all that reaches
the script text; `seq` is an explicit per-CV sequence. -/
inductive KappaArg where
  | num (v : String)
  | seq (l : List String)
deriving DecidableEq, Repr

/-- The isinstance-int/float broadcast at make_plumed.py lines 261-264: a
scalar becomes a constant sequence of the CV-list length, a sequence is
passed through unchanged. -/
def broadcast (k : KappaArg) (n : Nat) : List String :=
  match k with
  | .num v => List.replicate n v
  | .seq l => l

/-- `make_restraint_plumed` (lines 239-270). -/
def make_restraint_plumed (dihedral_info : DihedralInfo) (cv_lines : List String)
    (kappa atv : KappaArg) (stride : Nat) (output : String)
    (mode method : String) : Except Err String := do
  let (content₀, cv_name_list) ←
    if mode = "torsion" then
      make_torsion_list_from_file dihedral_info
    else if mode = "custom" then do
      let (ret, names, _) ← user_plumed_def cv_lines stride output method
      .ok ([ret], names)
    else .error .unknownMode
  let (res_list, _) ← make_restraint_list cv_name_list
      (broadcast kappa cv_name_list.length) (broadcast atv cv_name_list.length)
  .ok (list_to_string (content₀ ++ res_list ++ [make_print cv_name_list stride output]) "\n")

/-- Python `str(None)`, for the `content_list.append(print_content)` branch
of `make_constraint_plumed` when the parser captured no directive. -/
def pyStrOptional (o : Option String) : String :=
  match o with
  | some s => s
  | none => "None"

/-- `make_constraint_plumed` (lines 272-296). -/
def make_constraint_plumed (distance_info : List String) (cv_lines : List String)
    (stride : Nat) (output : String) (mode method : String) : Except Err String := do
  let (content₀, cv_name_list, print_content) ←
    if mode = "distance" then do
      let (ds, ns) ← make_distance_list_from_file distance_info
      .ok (ds, ns, (none : Option String))
    else if mode = "custom" then do
      let (ret, names, pc) ← user_plumed_def cv_lines stride output method
      .ok ([ret], names, pc)
    else .error .unknownMode
  if cv_name_list = [] then
    .ok (list_to_string (content₀ ++ [pyStrOptional print_content]) "\n")
  else
    .ok (list_to_string (content₀ ++ [make_print cv_name_list stride output]) "\n")

/-- `make_deepfe_plumed` (lines 298-327).  In the `custom` branch line 320
calls `user_plumed_def(cv_file[0], stride, output)` with three arguments
while `user_plumed_def` has four required parameters (no defaults), so
Python raises `TypeError` at the call, before the callee body runs. -/
def make_deepfe_plumed (dihedral_info : DihedralInfo) (distance_info : List String)
    (trust_lvl_1 trust_lvl_2 : String) (model_list : List String)
    (stride : Nat) (output : String) (mode : String) : Except Err String := do
  let (content₀, cv_name_list) ←
    if mode = "torsion" then
      make_torsion_list_from_file dihedral_info
    else if mode = "distance" then
      make_distance_list_from_file distance_info
    else if mode = "custom" then
      (.error .typeError : Except Err (List String × List String))
    else .error .unknownMode
  let deepfe_string := make_deepfe_bias cv_name_list trust_lvl_1 trust_lvl_2 model_list
  .ok (list_to_string
    (content₀ ++ [deepfe_string, make_print cv_name_list stride output]) "\n")

/-- `get_cv_name` (lines 330-347).  Line 344 has the same three-argument
call of the four-parameter `user_plumed_def` as `make_deepfe_plumed`, so
the `custom` branch raises `TypeError`. -/
def get_cv_name (dihedral_info : DihedralInfo) (distance_info : List String)
    (mode : String) : Except Err (List String) := do
  if mode = "torsion" then
    let (_, cv_name_list) ← make_torsion_list_from_file dihedral_info
    .ok cv_name_list
  else if mode = "distance" then
    let (_, cv_name_list) ← make_distance_list_from_file distance_info
    .ok cv_name_list
  else if mode = "custom" then
    (.error .typeError : Except Err (List String))
  else .error .unknownMode

/-! ## `run_select.py`: the selection phase of `RunSelect.execute`

The trajectory-slicing part (lines 112-136) and the committee evaluation
`make_std` (from `rid.select.model_devi`, outside the inspected slice) are
external collaborators; the committee evaluation is passed as a function
argument and is never called when no committee is supplied. -/

/-- Modelled from the spec: `select_from_devi` from `rid.select.conf_select`
(missing from the slice) returns the indices of points whose disagreement
statistic does not exceed the trust threshold, in order (§4.5). -/
def select_from_devi (stds : List ℚ) (trust_lvl_1 : ℚ) : List Nat :=
  (List.range stds.length).filter (fun i => decide (stds.getD i 0 ≤ trust_lvl_1))

/-- Numpy fancy indexing `arr[sel]` for an index list known to be in
range. -/
def npIndex {α : Type} (arr : List α) (sel : List Nat) : List α :=
  sel.filterMap arr.get?

/-- What the selection phase writes and selects: the contents of the
`cls_` deviation record file, the positions selected from the candidate
arrays, and the resulting index/data arrays. -/
structure SelOutcome where
  deviFileContent : List ℚ
  selectedPos : List Nat
  sel_idx : List Int
  sel_data : List (List ℚ)
deriving Repr

/-- `RunSelect.execute`, selection phase (run_select.py lines 102-111):
with no committee the deviation record written is empty and every
candidate position is selected (`range(len(cls_sel_idx))`); with a
committee the `make_std` statistics are written and `select_from_devi`
filters by `trust_lvl_1`. -/
def runSelectPhase (models : Option (List String))
    (make_std : List (List ℚ) → List String → List ℚ)
    (cls_sel_idx : List Int) (cls_sel_data : List (List ℚ))
    (trust_lvl_1 : ℚ) : SelOutcome :=
  match models with
  | none =>
    let pos := List.range cls_sel_idx.length
    ⟨[], pos, npIndex cls_sel_idx pos, npIndex cls_sel_data pos⟩
  | some ms =>
    let stds := make_std cls_sel_data ms
    let pos := select_from_devi stds trust_lvl_1
    ⟨stds, pos, npIndex cls_sel_idx pos, npIndex cls_sel_data pos⟩

/-! ## `resubmit.py`: step reuse on resubmission -/

/-- One recorded workflow step as `Workflow.query_step` reports it: its
node type, phase, and key. -/
structure WfStep where
  type : String
  phase : String
  key : String
deriving DecidableEq, Repr

/-- The reuse filter of `resubmit_rid` (resubmit.py lines 145-150): a step
is reused iff it is a `Pod`, it `Succeeded`, and its key is not
`"prepare-rid"`. -/
def succeededSteps (all_steps : List WfStep) : List WfStep :=
  all_steps.filter
    (fun s => s.type = "Pod" ∧ s.phase = "Succeeded" ∧ s.key ≠ "prepare-rid")

/-- The reuse set claimed by the spec sentence (§6): all previously
succeeded steps except the distinguished prepare step — with no condition
on the node type.  Kept separate so the two can be compared. -/
def specClaimedReuseSteps (all_steps : List WfStep) : List WfStep :=
  all_steps.filter (fun s => s.phase = "Succeeded" ∧ s.key ≠ "prepare-rid")

/-! ## Helper lemmas: which errors each function can produce -/

theorem errBind {α β : Type} (e : Err) (f : α → Except Err β) :
    (Except.error e >>= f) = Except.error e := rfl

theorem okBind {α β : Type} (a : α) (f : α → Except Err β) :
    (Except.ok a >>= f) = f a := rfl

theorem bind_ne_um {α β : Type} {x : Except Err α} {f : α → Except Err β}
    (hx : x ≠ .error .unknownMode) (hf : ∀ a, f a ≠ .error .unknownMode) :
    (x >>= f) ≠ .error .unknownMode := by
  cases x with
  | error e =>
    rw [errBind]
    intro hcontra
    cases hcontra
    exact hx rfl
  | ok a => rw [okBind]; exact hf a

theorem processLine_err {m : String} {s : ScanState} {l : String} {e : Err}
    (h : processLine m s l = .error e) : e = .indexError := by
  unfold processLine at h
  simp only [] at h
  split_ifs at h <;> simp_all

theorem scanLines_err {m : String} : ∀ {lines : List String} {s : ScanState} {e : Err},
    scanLines m s lines = .error e → e = .indexError := by
  intro lines
  induction lines with
  | nil => intro s e h; simp [scanLines] at h
  | cons l rest ih =>
    intro s e h
    simp only [scanLines] at h
    split at h
    · simp at h
    · cases hp : processLine m s l with
      | error e' =>
        rw [hp, errBind] at h
        cases h
        exact processLine_err hp
      | ok s' =>
        rw [hp, okBind] at h
        exact ih h

theorem scanLines_ne_um {m : String} {lines : List String} {s : ScanState} :
    scanLines m s lines ≠ .error .unknownMode := by
  intro h
  cases scanLines_err h

theorem rewriteDirective_err {pc : String} {p : Nat} {f : String} {e : Err}
    (h : rewriteDirective pc p f = .error e) : e = .indexError := by
  unfold rewriteDirective at h
  simp only [] at h
  split_ifs at h <;> simp_all

theorem rewriteDirective_ne_um {pc : String} {p : Nat} {f : String} :
    rewriteDirective pc p f ≠ .error .unknownMode := by
  intro h
  cases rewriteDirective_err h

theorem user_plumed_def_ne_um {lines : List String} {p : Nat} {f m : String} :
    user_plumed_def lines p f m ≠ .error .unknownMode := by
  unfold user_plumed_def
  apply bind_ne_um scanLines_ne_um
  intro s
  split
  · simp
  · split
    · simp
    · split_ifs
      · simp
      · apply bind_ne_um rewriteDirective_ne_um; intro pc'; simp
      · apply bind_ne_um rewriteDirective_ne_um; intro pc'; simp
      · simp

theorem make_torsion_angs_err {resid : Nat} :
    ∀ {angs : List (String × List Nat)} {e : Err},
      make_torsion_angs resid angs = .error e → e = .keyError ∨ e = .badCvAtoms := by
  intro angs
  induction angs with
  | nil => intro e h; simp [make_torsion_angs] at h
  | cons p rest ih =>
    intro e h
    obtain ⟨ang, atoms⟩ := p
    simp only [make_torsion_angs] at h
    cases ha : angle_id ang with
    | error e' =>
      rw [ha, errBind] at h
      cases h
      unfold angle_id at ha
      split_ifs at ha <;> simp_all
    | ok angid =>
      rw [ha, okBind] at h
      cases ht : make_torsion (make_torsion_name resid angid) atoms with
      | error e' =>
        rw [ht, errBind] at h
        cases h
        unfold make_torsion at ht
        split_ifs at ht <;> simp_all
      | ok tdef =>
        rw [ht, okBind] at h
        cases hr : make_torsion_angs resid rest with
        | error e' =>
          rw [hr, errBind] at h
          cases h
          exact ih hr
        | ok pr => rw [hr, okBind] at h; simp at h

theorem make_torsion_list_err :
    ∀ {info : DihedralInfo} {e : Err},
      make_torsion_list info = .error e → e = .keyError ∨ e = .badCvAtoms := by
  intro info
  induction info with
  | nil => intro e h; simp [make_torsion_list] at h
  | cons p rest ih =>
    intro e h
    obtain ⟨resid, angs⟩ := p
    simp only [make_torsion_list] at h
    cases ha : make_torsion_angs resid angs with
    | error e' =>
      rw [ha, errBind] at h
      cases h
      exact make_torsion_angs_err ha
    | ok p1 =>
      rw [ha, okBind] at h
      cases hr : make_torsion_list rest with
      | error e' =>
        rw [hr, errBind] at h
        cases h
        exact ih hr
      | ok p2 => rw [hr, okBind] at h; simp at h

theorem make_torsion_list_from_file_ne_um {info : DihedralInfo} :
    make_torsion_list_from_file info ≠ .error .unknownMode := by
  unfold make_torsion_list_from_file
  split_ifs
  · simp
  · intro h
    rcases make_torsion_list_err h with h' | h' <;> cases h'

theorem pyInt_err {s : String} {e : Err} (h : pyInt s = .error e) : e = .valueError := by
  unfold pyInt at h
  split at h <;> first | (cases h; rfl) | skip
  all_goals split at h <;> simp_all

theorem make_distance_name_err {l : List String} {e : Err}
    (h : make_distance_name l = .error e) : e = .indexError ∨ e = .valueError := by
  unfold make_distance_name at h
  split at h
  · cases h; left; rfl
  · cases h; left; rfl
  · rename_i a0 a1 _
    cases h0 : pyInt a0 with
    | error e' =>
      rw [h0, errBind] at h
      cases h
      exact Or.inr (pyInt_err h0)
    | ok i0 =>
      rw [h0, okBind] at h
      cases h1 : pyInt a1 with
      | error e' =>
        rw [h1, errBind] at h
        cases h
        exact Or.inr (pyInt_err h1)
      | ok i1 => rw [h1, okBind] at h; simp at h

theorem make_distance_list_err :
    ∀ {keys : List String} {e : Err},
      make_distance_list keys = .error e →
        e = .indexError ∨ e = .valueError ∨ e = .badCvAtoms := by
  intro keys
  induction keys with
  | nil => intro e h; simp [make_distance_list] at h
  | cons key rest ih =>
    intro e h
    simp only [make_distance_list] at h
    cases hn : make_distance_name (pySplit key " ") with
    | error e' =>
      rw [hn, errBind] at h
      cases h
      rcases make_distance_name_err hn with h' | h'
      · exact Or.inl h'
      · exact Or.inr (Or.inl h')
    | ok dname =>
      rw [hn, okBind] at h
      cases hd : make_distance dname (pySplit key " ") with
      | error e' =>
        rw [hd, errBind] at h
        cases h
        unfold make_distance at hd
        split_ifs at hd <;> simp_all
      | ok ddef =>
        rw [hd, okBind] at h
        cases hr : make_distance_list rest with
        | error e' =>
          rw [hr, errBind] at h
          cases h
          exact ih hr
        | ok pr => rw [hr, okBind] at h; simp at h

theorem make_distance_list_from_file_ne_um {keys : List String} :
    make_distance_list_from_file keys ≠ .error .unknownMode := by
  unfold make_distance_list_from_file
  split_ifs
  · simp
  · intro h
    rcases make_distance_list_err h with h' | h' | h' <;> cases h'

theorem make_restraint_list_ne_um {cv_list kappa atv : List String} :
    make_restraint_list cv_list kappa atv ≠ .error .unknownMode := by
  unfold make_restraint_list
  split_ifs <;> simp

/-! ## Mode-dispatch characterizations of the three synthesizer entry points -/

theorem mrp_torsion_ne_um (di : DihedralInfo) (cl : List String) (k a : KappaArg)
    (st : Nat) (out method : String) :
    make_restraint_plumed di cl k a st out "torsion" method ≠ .error .unknownMode := by
  unfold make_restraint_plumed
  rw [if_pos rfl]
  cases hx : make_torsion_list_from_file di with
  | error e =>
    rw [errBind]
    intro hcontra
    cases hcontra
    exact make_torsion_list_from_file_ne_um hx
  | ok p =>
    rw [okBind]
    obtain ⟨c, names⟩ := p
    dsimp only
    cases hy : make_restraint_list names (broadcast k names.length) (broadcast a names.length) with
    | error e =>
      rw [errBind]
      intro hcontra
      cases hcontra
      exact make_restraint_list_ne_um hy
    | ok q =>
      rw [okBind]
      obtain ⟨r, rn⟩ := q
      dsimp only
      intro hcontra
      cases hcontra

theorem mrp_custom_ne_um (di : DihedralInfo) (cl : List String) (k a : KappaArg)
    (st : Nat) (out method : String) :
    make_restraint_plumed di cl k a st out "custom" method ≠ .error .unknownMode := by
  unfold make_restraint_plumed
  rw [if_neg (by decide), if_pos rfl]
  cases hx : user_plumed_def cl st out method with
  | error e =>
    rw [errBind]
    intro hcontra
    cases hcontra
    exact user_plumed_def_ne_um hx
  | ok t =>
    rw [okBind]
    obtain ⟨ret, names, pc⟩ := t
    dsimp only
    rw [okBind]
    dsimp only
    cases hy : make_restraint_list names (broadcast k names.length) (broadcast a names.length) with
    | error e =>
      rw [errBind]
      intro hcontra
      cases hcontra
      exact make_restraint_list_ne_um hy
    | ok q =>
      rw [okBind]
      obtain ⟨r, rn⟩ := q
      dsimp only
      intro hcontra
      cases hcontra

theorem mcp_distance_ne_um (keys cl : List String) (st : Nat) (out method : String) :
    make_constraint_plumed keys cl st out "distance" method ≠ .error .unknownMode := by
  unfold make_constraint_plumed
  rw [if_pos rfl]
  cases hx : make_distance_list_from_file keys with
  | error e =>
    rw [errBind]
    intro hcontra
    cases hcontra
    exact make_distance_list_from_file_ne_um hx
  | ok p =>
    rw [okBind]
    obtain ⟨ds, ns⟩ := p
    dsimp only
    rw [okBind]
    dsimp only
    split
    · intro hcontra; cases hcontra
    · intro hcontra; cases hcontra

theorem mcp_custom_ne_um (keys cl : List String) (st : Nat) (out method : String) :
    make_constraint_plumed keys cl st out "custom" method ≠ .error .unknownMode := by
  unfold make_constraint_plumed
  rw [if_neg (by decide), if_pos rfl]
  cases hx : user_plumed_def cl st out method with
  | error e =>
    rw [errBind]
    intro hcontra
    cases hcontra
    exact user_plumed_def_ne_um hx
  | ok t =>
    rw [okBind]
    obtain ⟨ret, names, pc⟩ := t
    dsimp only
    rw [okBind]
    dsimp only
    split
    · intro hcontra; cases hcontra
    · intro hcontra; cases hcontra

theorem mdp_torsion_ne_um (di : DihedralInfo) (keys : List String) (t1 t2 : String)
    (ml : List String) (st : Nat) (out : String) :
    make_deepfe_plumed di keys t1 t2 ml st out "torsion" ≠ .error .unknownMode := by
  unfold make_deepfe_plumed
  rw [if_pos rfl]
  cases hx : make_torsion_list_from_file di with
  | error e =>
    rw [errBind]
    intro hcontra
    cases hcontra
    exact make_torsion_list_from_file_ne_um hx
  | ok p =>
    rw [okBind]
    obtain ⟨c, names⟩ := p
    dsimp only
    intro hcontra
    cases hcontra

theorem mdp_distance_ne_um (di : DihedralInfo) (keys : List String) (t1 t2 : String)
    (ml : List String) (st : Nat) (out : String) :
    make_deepfe_plumed di keys t1 t2 ml st out "distance" ≠ .error .unknownMode := by
  unfold make_deepfe_plumed
  rw [if_neg (by decide), if_pos rfl]
  cases hx : make_distance_list_from_file keys with
  | error e =>
    rw [errBind]
    intro hcontra
    cases hcontra
    exact make_distance_list_from_file_ne_um hx
  | ok p =>
    rw [okBind]
    obtain ⟨c, names⟩ := p
    dsimp only
    intro hcontra
    cases hcontra

theorem mdp_custom_ne_um (di : DihedralInfo) (keys : List String) (t1 t2 : String)
    (ml : List String) (st : Nat) (out : String) :
    make_deepfe_plumed di keys t1 t2 ml st out "custom" ≠ .error .unknownMode := by
  unfold make_deepfe_plumed
  rw [if_neg (by decide), if_neg (by decide), if_pos rfl, errBind]
  intro hcontra
  cases hcontra

theorem mrp_um_iff (di : DihedralInfo) (cl : List String) (k a : KappaArg)
    (st : Nat) (out mode method : String) :
    make_restraint_plumed di cl k a st out mode method = .error .unknownMode
      ↔ (mode ≠ "torsion" ∧ mode ≠ "custom") := by
  by_cases h1 : mode = "torsion"
  · subst h1
    exact iff_of_false (mrp_torsion_ne_um di cl k a st out method) (by simp)
  · by_cases h2 : mode = "custom"
    · subst h2
      exact iff_of_false (mrp_custom_ne_um di cl k a st out method) (by simp)
    · apply iff_of_true _ ⟨h1, h2⟩
      unfold make_restraint_plumed
      rw [if_neg h1, if_neg h2, errBind]

theorem mcp_um_iff (keys cl : List String) (st : Nat) (out mode method : String) :
    make_constraint_plumed keys cl st out mode method = .error .unknownMode
      ↔ (mode ≠ "distance" ∧ mode ≠ "custom") := by
  by_cases h1 : mode = "distance"
  · subst h1
    exact iff_of_false (mcp_distance_ne_um keys cl st out method) (by simp)
  · by_cases h2 : mode = "custom"
    · subst h2
      exact iff_of_false (mcp_custom_ne_um keys cl st out method) (by simp)
    · apply iff_of_true _ ⟨h1, h2⟩
      unfold make_constraint_plumed
      rw [if_neg h1, if_neg h2, errBind]

theorem mdp_um_iff (di : DihedralInfo) (keys : List String) (t1 t2 : String)
    (ml : List String) (st : Nat) (out mode : String) :
    make_deepfe_plumed di keys t1 t2 ml st out mode = .error .unknownMode
      ↔ (mode ≠ "torsion" ∧ mode ≠ "distance" ∧ mode ≠ "custom") := by
  by_cases h1 : mode = "torsion"
  · subst h1
    exact iff_of_false (mdp_torsion_ne_um di keys t1 t2 ml st out) (by simp)
  · by_cases h2 : mode = "distance"
    · subst h2
      exact iff_of_false (mdp_distance_ne_um di keys t1 t2 ml st out) (by simp)
    · by_cases h3 : mode = "custom"
      · subst h3
        exact iff_of_false (mdp_custom_ne_um di keys t1 t2 ml st out) (by simp)
      · apply iff_of_true _ ⟨h1, h2, h3⟩
        unfold make_deepfe_plumed
        rw [if_neg h1, if_neg h2, if_neg h3, errBind]

/-! ## Further helper definitions and lemmas for the claims -/

/-- The restrained-mode restraint construction step of
`make_restraint_plumed` (make_plumed.py lines 261-267): broadcast the
kappa/at arguments over the CV list, then build the restraint clauses. -/
def restraint_construction (cv_name_list : List String) (kappa atv : KappaArg) :
    Except Err (List String × List String) :=
  make_restraint_list cv_name_list
    (broadcast kappa cv_name_list.length) (broadcast atv cv_name_list.length)

/-- Lines of a script, for counting clause kinds. -/
def countMatching (script pat : String) : Nat :=
  ((pySplit script "\n").filter (fun l => pyIn pat l)).length

/-- The monitoring clauses of a script. -/
def printLines (script : String) : List String :=
  (pySplit script "\n").filter (fun l => pyIn "PRINT" l)

theorem npIndex_range {α : Type} : ∀ (l : List α), npIndex l (List.range l.length) = l := by
  intro l
  induction l with
  | nil => rfl
  | cons a t ih =>
    show npIndex (a :: t) (List.range (t.length + 1)) = a :: t
    rw [List.range_succ_eq_map]
    unfold npIndex
    rw [List.filterMap_cons]
    have h0 : (a :: t).get? 0 = some a := rfl
    rw [h0, List.filterMap_map]
    have hc : ((a :: t).get? ∘ Nat.succ) = t.get? := by
      funext i
      rfl
    rw [hc]
    exact congrArg (a :: ·) ih

theorem processLine_constrained (s : ScanState) (l : String) :
    processLine "constrained" s l =
      .ok ⟨s.ret ++ l, [], s.ispath, s.print_content⟩ := by
  unfold processLine
  simp only []
  rw [if_neg (by decide)]
  simp

theorem scan_constrained_names :
    ∀ {lines : List String} {s s' : ScanState},
      scanLines "constrained" s lines = .ok s' →
      s'.cv_names = [] ∨ s'.cv_names = s.cv_names := by
  intro lines
  induction lines with
  | nil =>
    intro s s' h
    simp only [scanLines] at h
    cases h
    exact Or.inr rfl
  | cons l rest ih =>
    intro s s' h
    simp only [scanLines] at h
    split at h
    · cases h
      exact Or.inr rfl
    · rw [processLine_constrained, okBind] at h
      rcases ih h with h' | h'
      · exact Or.inl h'
      · exact Or.inl h'

/-! ## Claim C1 -/

/-- The dihedral map of the spec's end-to-end scenario 1:
`{12: {phi: [1,2,3,4], psi: [5,6,7,8]}}`. -/
def c5_dihedral_info : DihedralInfo := [(12, [("phi", [1, 2, 3, 4]), ("psi", [5, 6, 7, 8])])]

/-- C1 counterexample: the claim says each of the three entry points
accepts every mode tag in the set torsion/distance/custom, but
`make_restraint_plumed` fails with the UnknownMode error on the in-set tag
`"distance"`. -/
theorem C1_counterexample :
    make_restraint_plumed c5_dihedral_info [] (.num "0.5") (.num "1.0")
        100 "plm.out" "distance" "restrained" = .error .unknownMode := by
  decide

/-- C1 (amended): each Bias Script Synthesizer entry point raises the
UnknownMode error exactly when the mode tag is outside its own dispatch
set, and those sets are torsion/custom for `make_restraint_plumed`,
distance/custom for `make_constraint_plumed`, and torsion/distance/custom
for `make_deepfe_plumed`. -/
theorem C1_mode_dispatch (di : DihedralInfo) (keys cl : List String)
    (k a : KappaArg) (t1 t2 : String) (ml : List String) (st : Nat)
    (out mode method : String) :
    (make_restraint_plumed di cl k a st out mode method = .error .unknownMode
        ↔ (mode ≠ "torsion" ∧ mode ≠ "custom"))
    ∧ (make_constraint_plumed keys cl st out mode method = .error .unknownMode
        ↔ (mode ≠ "distance" ∧ mode ≠ "custom"))
    ∧ (make_deepfe_plumed di keys t1 t2 ml st out mode = .error .unknownMode
        ↔ (mode ≠ "torsion" ∧ mode ≠ "distance" ∧ mode ≠ "custom")) :=
  ⟨mrp_um_iff di cl k a st out mode method,
   mcp_um_iff keys cl st out mode method,
   mdp_um_iff di keys t1 t2 ml st out mode⟩

/-! ## Claim C3 -/

/-- C3: with no committee of models supplied, the selection phase of
`RunSelect.execute` writes an empty deviation record, selects every
candidate position, and the selected index array equals the full input
cluster-selection index array in its original order; no selection error
can be raised because the phase is total. -/
theorem C3_no_committee_keeps_all (f : List (List ℚ) → List String → List ℚ)
    (idx : List Int) (data : List (List ℚ)) (t : ℚ) :
    (runSelectPhase none f idx data t).deviFileContent = []
    ∧ (runSelectPhase none f idx data t).selectedPos = List.range idx.length
    ∧ (runSelectPhase none f idx data t).sel_idx = idx := by
  refine ⟨rfl, rfl, ?_⟩
  show npIndex idx (List.range idx.length) = idx
  exact npIndex_range idx

/-! ## Claim C4 -/

/-- C4: for a non-empty CV-name list, restraint construction with scalar
kappa/at arguments equals restraint construction with explicit
per-CV sequences of the same value, and it succeeds, producing the
`res-`-prefixed restraint names in CV order. -/
theorem C4_broadcast_agrees (cvs : List String) (k a : String) (_h : cvs ≠ []) :
    restraint_construction cvs (.num k) (.num a)
        = restraint_construction cvs (.seq (List.replicate cvs.length k))
            (.seq (List.replicate cvs.length a))
    ∧ ∃ rl, restraint_construction cvs (.num k) (.num a)
        = .ok (rl, cvs.map (fun cv => "res-" ++ cv)) := by
  constructor
  · rfl
  · unfold restraint_construction make_restraint_list
    simp only [broadcast]
    rw [if_neg (by simp), if_neg (by simp)]
    exact ⟨_, rfl⟩

/-- C4 witness at a concrete one-element CV list. -/
theorem C4_witness :
    (["a"] : List String) ≠ []
    ∧ restraint_construction ["a"] (.num "0.5") (.num "1.0")
        = restraint_construction ["a"] (.seq (List.replicate 1 "0.5"))
            (.seq (List.replicate 1 "1.0")) :=
  ⟨by decide, (C4_broadcast_agrees ["a"] "0.5" "1.0" (by decide)).1⟩

/-! ## Claim C9 -/

/-- C9 counterexample: a previously succeeded step whose node type is not
`Pod` is not reused, although the claim's reuse set ("exactly the
previously succeeded steps whose key is not prepare-rid") contains it. -/
theorem C9_counterexample :
    succeededSteps [⟨"DAG", "Succeeded", "x"⟩] = []
    ∧ specClaimedReuseSteps [⟨"DAG", "Succeeded", "x"⟩] = [⟨"DAG", "Succeeded", "x"⟩] := by
  decide

/-- C9 (amended): resubmission reuses exactly the previously succeeded
steps of node type `Pod` whose key is not `"prepare-rid"`; in particular
the prepare step is never in the reuse set and no non-succeeded step is
reused. -/
theorem C9_reuse_set (steps : List WfStep) (s : WfStep) :
    s ∈ succeededSteps steps ↔
      (s ∈ steps ∧ s.type = "Pod" ∧ s.phase = "Succeeded" ∧ s.key ≠ "prepare-rid") := by
  unfold succeededSteps
  simp [List.mem_filter]

/-! ## Claim C10 -/

/-- C10: with mode custom, `make_deepfe_plumed` and `get_cv_name` invoke
`user_plumed_def` with only three arguments while it has four required
parameters, so both raise a TypeError before producing any output — the
custom-CV path of the ensemble-bias synthesizer never succeeds. -/
theorem C10_custom_type_error (di : DihedralInfo) (keys : List String)
    (t1 t2 : String) (ml : List String) (st : Nat) (out : String) :
    make_deepfe_plumed di keys t1 t2 ml st out "custom" = .error .typeError
    ∧ get_cv_name di keys "custom" = .error .typeError := by
  constructor
  · unfold make_deepfe_plumed
    rw [if_neg (by decide), if_neg (by decide), if_pos rfl, errBind]
  · unfold get_cv_name
    rw [if_neg (by decide), if_neg (by decide), if_pos rfl]

/-! ## Claim C2 -/

/-- Is a line classified by the `user_plumed_def` loop as a PATH CV
declaration?  Mirrors the branch structure of lines 116-135: the colon
form is tried first, the `LABEL=` form only on colon-free lines, comments
(`#`) disable both, and the CV kind is the first space-separated token of
the stripped left (colon) resp. left-of-`LABEL=` (label) part. -/
def isPathDecl (line : String) : Bool :=
  if pyIn ":" line = true ∧ pyIn "#" line = false then
    decide ((pySplit (pyStrip ((pySplit line ":").getD 1 "")) " ").getD 0 "" = "PATH")
  else if pyIn "LABEL" line = true ∧ pyIn "#" line = false then
    decide ((pySplit (pyStrip ((pySplit line "LABEL=").getD 0 "")) " ").getD 0 "" = "PATH")
  else false

/-- The two synthetic CV names the PATH branches of `user_plumed_def`
produce from a PATH declaration line (lines 124-125 for the colon form,
lines 134-135 for the `LABEL=` form). -/
def pathNames (line : String) : List String :=
  if pyIn ":" line = true ∧ pyIn "#" line = false then
    [pyStrip ((pySplit line ":").getD 0 "" ++ ".spath"),
     pyStrip ((pySplit line ":").getD 0 "" ++ ".zpath")]
  else
    [pyStrip ((pySplit line "LABEL=").getD 1 "") ++ ".spath",
     pyStrip ((pySplit line "LABEL=").getD 1 "") ++ ".zpath"]

theorem processLine_path {s s' : ScanState} {line : String}
    (hpath : isPathDecl line = true)
    (h : processLine "restrained" s line = .ok s') :
    s'.cv_names = pathNames line ∧ s'.ispath = true := by
  unfold isPathDecl at hpath
  unfold pathNames
  unfold processLine at h
  simp only [] at h
  split_ifs at hpath h ⊢ <;> (try simp_all) <;> (try (subst h; exact ⟨rfl, rfl⟩))

theorem processLine_nonpath {s s' : ScanState} {l : String}
    (hl : isPathDecl l = false) (hip : s.ispath = true)
    (h : processLine "restrained" s l = .ok s') :
    s'.cv_names = s.cv_names ∧ s'.ispath = true := by
  unfold isPathDecl at hl
  unfold processLine at h
  simp only [] at h
  split_ifs at hl h <;> (try simp_all) <;> (try (subst h; exact ⟨rfl, rfl⟩))

theorem scan_nonpath_names :
    ∀ {post : List String} {s s' : ScanState},
      s.ispath = true → (∀ l ∈ post, isPathDecl l = false) →
      scanLines "restrained" s post = .ok s' → s'.cv_names = s.cv_names := by
  intro post
  induction post with
  | nil =>
    intro s s' _ _ h
    simp only [scanLines] at h
    cases h
    rfl
  | cons l rest ih =>
    intro s s' hip hpost h
    simp only [scanLines] at h
    split at h
    · cases h
      rfl
    · cases hp : processLine "restrained" s l with
      | error e => rw [hp, errBind] at h; cases h
      | ok s₂ =>
        rw [hp, okBind] at h
        obtain ⟨hn, hi⟩ := processLine_nonpath (hpost l (by simp)) hip hp
        rw [ih hi (fun x hx => hpost x (by simp [hx])) h, hn]

theorem scan_path_names :
    ∀ (pre : List String) {post : List String} {line : String} {s s' : ScanState},
      isPathDecl line = true → isPrintLine line = false →
      (∀ l ∈ pre, isPrintLine l = false) →
      (∀ l ∈ post, isPathDecl l = false) →
      scanLines "restrained" s (pre ++ line :: post) = .ok s' →
      s'.cv_names = pathNames line := by
  intro pre
  induction pre with
  | nil =>
    intro post line s s' hpath hline _ hpost h
    simp only [List.nil_append, scanLines] at h
    rw [if_neg (by simp [hline])] at h
    cases hp : processLine "restrained" s line with
    | error e => rw [hp, errBind] at h; cases h
    | ok s₂ =>
      rw [hp, okBind] at h
      obtain ⟨hn, hi⟩ := processLine_path hpath hp
      rw [scan_nonpath_names hi hpost h, hn]
  | cons p rest ih =>
    intro post line s s' hpath hline hpre hpost h
    simp only [List.cons_append, scanLines] at h
    rw [if_neg (by simp [hpre p (by simp)])] at h
    cases hp : processLine "restrained" s p with
    | error e => rw [hp, errBind] at h; cases h
    | ok s₂ =>
      rw [hp, okBind] at h
      exact ih hpath hline (fun x hx => hpre x (by simp [hx])) hpost h

/-- A successful `user_plumed_def` call returns exactly the CV names of
its line scan: the post-processing of the captured directive never edits
the name list. -/
theorem user_plumed_def_names {lines : List String} {st : Nat} {f method : String}
    {r : String × List String × Option String}
    (hr : user_plumed_def lines st f method = .ok r) :
    ∃ s, scanLines method initScan lines = .ok s ∧ r.2.1 = s.cv_names := by
  unfold user_plumed_def at hr
  cases hscan : scanLines method initScan lines with
  | error e => rw [hscan, errBind] at hr; cases hr
  | ok s =>
    refine ⟨s, rfl, ?_⟩
    rw [hscan, okBind] at hr
    by_cases h0 : (s.ret = "" ∧ s.cv_names = [])
    · rw [if_pos h0] at hr; cases hr
    · rw [if_neg h0] at hr
      cases hpc : s.print_content with
      | none =>
        rw [hpc] at hr
        dsimp only at hr
        cases hr
        rfl
      | some pc =>
        rw [hpc] at hr
        dsimp only at hr
        by_cases hm1 : method = "restrained"
        · rw [if_pos hm1] at hr
          by_cases hcnt : (pySplit pc ",").length ≠ s.cv_names.length
          · rw [if_pos hcnt] at hr; cases hr
          · rw [if_neg hcnt] at hr
            cases hrw : rewriteDirective pc st f with
            | error e => rw [hrw, errBind] at hr; cases hr
            | ok pc' => rw [hrw, okBind] at hr; cases hr; rfl
        · rw [if_neg hm1] at hr
          by_cases hm2 : method = "constrained"
          · rw [if_pos hm2] at hr
            cases hrw : rewriteDirective pc st f with
            | error e => rw [hrw, errBind] at hr; cases hr
            | ok pc' => rw [hrw, okBind] at hr; cases hr; rfl
          · rw [if_neg hm2] at hr; cases hr; rfl

/-- C2: for every restrained-method custom CV fragment containing a PATH
CV declaration — in either the colon form or the `LABEL=` form — before
any monitoring directive and with no further PATH declaration after it,
any successful parse returns exactly the two synthetic names
`label.spath` / `label.zpath` derived from that PATH declaration's label:
names captured from declarations earlier in the fragment are discarded,
declarations after the PATH line add nothing, and the final list has
exactly 2 names. -/
theorem C2_path_supersedes (pre post : List String) (line : String) (st : Nat)
    (f : String) (r : String × List String × Option String)
    (hpath : isPathDecl line = true) (hline : isPrintLine line = false)
    (hpre : ∀ l ∈ pre, isPrintLine l = false)
    (hpost : ∀ l ∈ post, isPathDecl l = false)
    (hr : user_plumed_def (pre ++ line :: post) st f "restrained" = .ok r) :
    r.2.1 = pathNames line ∧ r.2.1.length = 2 := by
  obtain ⟨s, hscan, hnames⟩ := user_plumed_def_names hr
  have h := scan_path_names pre hpath hline hpre hpost hscan
  constructor
  · rw [hnames, h]
  · rw [hnames, h]
    unfold pathNames
    split_ifs <;> rfl

/-- C2 witness: `C2_path_supersedes` applied to two concrete fragments —
the spec's scenario (two non-path declarations then a colon-form PATH
declaration) and a `LABEL=`-form PATH declaration followed by a further
non-path declaration. -/
theorem C2_witness :
    ((("c1: TORSION ATOMS=1,2,3,4\nc2: DISTANCE ATOMS=5,6\np1: PATH REFERENCE=path.pdb LAMBDA=500\n",
        ["p1.spath", "p1.zpath"], (none : Option String)) :
          String × List String × Option String).2.1
        = pathNames "p1: PATH REFERENCE=path.pdb LAMBDA=500\n")
    ∧ ((("PATH REFERENCE=x.pdb LABEL=p2\nc3: TORSION ATOMS=1,2,3,4\n",
        ["p2.spath", "p2.zpath"], (none : Option String)) :
          String × List String × Option String).2.1
        = pathNames "PATH REFERENCE=x.pdb LABEL=p2\n") :=
  ⟨(C2_path_supersedes ["c1: TORSION ATOMS=1,2,3,4\n", "c2: DISTANCE ATOMS=5,6\n"] []
      "p1: PATH REFERENCE=path.pdb LAMBDA=500\n" 100 "plm.out"
      ("c1: TORSION ATOMS=1,2,3,4\nc2: DISTANCE ATOMS=5,6\np1: PATH REFERENCE=path.pdb LAMBDA=500\n",
        ["p1.spath", "p1.zpath"], none)
      (by decide) (by decide) (by decide) (by decide) (by decide)).1,
   (C2_path_supersedes [] ["c3: TORSION ATOMS=1,2,3,4\n"]
      "PATH REFERENCE=x.pdb LABEL=p2\n" 100 "plm.out"
      ("PATH REFERENCE=x.pdb LABEL=p2\nc3: TORSION ATOMS=1,2,3,4\n",
        ["p2.spath", "p2.zpath"], none)
      (by decide) (by decide) (by decide) (by decide) (by decide)).1⟩

/-! ## Claim C5 -/

/-- The script the restrained synthesizer produces on the spec's scenario-1
input. -/
def c5_script : String :=
  "dih-12-0: TORSION ATOMS=1,2,3,4\ndih-12-1: TORSION ATOMS=5,6,7,8\nres-dih-12-0: RESTRAINT ARG=dih-12-0 KAPPA=0.5 AT=1.0\nres-dih-12-1: RESTRAINT ARG=dih-12-1 KAPPA=0.5 AT=1.0\nPRINT STRIDE=100 ARG=dih-12-0,dih-12-1 FILE=plm.out"

/-- The unique monitoring clause of that script. -/
def c5_print_line : String := "PRINT STRIDE=100 ARG=dih-12-0,dih-12-1 FILE=plm.out"

set_option maxRecDepth 8192 in
/-- C5 counterexample: at the spec's scenario-1 input the restraint names
are `res-dih-12-0` / `res-dih-12-1`, but the unique monitoring clause
lists the CV names and contains neither restraint name — the claim's
"monitoring clause whose argument list names both restraint names" fails. -/
theorem C5_counterexample :
    make_restraint_plumed c5_dihedral_info [] (.num "0.5") (.num "1.0")
        100 "plm.out" "torsion" "restrained" = .ok c5_script
    ∧ printLines c5_script = [c5_print_line]
    ∧ (restraint_construction ["dih-12-0", "dih-12-1"] (.num "0.5") (.num "1.0")).map
        (fun p => p.2) = .ok ["res-dih-12-0", "res-dih-12-1"]
    ∧ pyIn "res-dih-12-0" c5_print_line = false
    ∧ pyIn "res-dih-12-1" c5_print_line = false := by
  decide

set_option maxRecDepth 8192 in
/-- C5 (amended): on the spec's scenario-1 input the restrained synthesizer
produces a script with exactly 2 torsion CV definitions, exactly 2
restraint clauses, and exactly 1 monitoring clause, whose argument list
names both restrained CV names (the restraint targets) and whose stride is
100. -/
theorem C5_scenario :
    make_restraint_plumed c5_dihedral_info [] (.num "0.5") (.num "1.0")
        100 "plm.out" "torsion" "restrained" = .ok c5_script
    ∧ countMatching c5_script "TORSION" = 2
    ∧ countMatching c5_script "RESTRAINT" = 2
    ∧ countMatching c5_script "PRINT" = 1
    ∧ printLines c5_script = [c5_print_line]
    ∧ pyIn "STRIDE=100" c5_print_line = true
    ∧ pyIn "ARG=dih-12-0,dih-12-1" c5_print_line = true := by
  decide

/-! ## Claim C6 -/

/-- C6 counterexample: a restrained-method fragment whose directive field
count (1) equals its captured CV count (1) still fails — the stride
rewrite raises an IndexError on the one-token directive — so "the parse
succeeds iff the field count equals the CV count" is false. -/
theorem C6_counterexample :
    scanLines "restrained" initScan ["a: DISTANCE ATOMS=1,2\n", "PRINT\n"]
      = .ok ⟨"a: DISTANCE ATOMS=1,2\n", ["a"], false, some "PRINT\n\n"⟩
    ∧ (pySplit "PRINT\n\n" ",").length = 1
    ∧ user_plumed_def ["a: DISTANCE ATOMS=1,2\n", "PRINT\n"] 100 "plm.out" "restrained"
      = .error .indexError := by
  decide

/-- C6 (amended): for a restrained-method fragment whose scan captured a
monitoring directive, a field-count/CV-count mismatch makes the parse fail
with the PrintCvMismatch error (provided the body or the name list is
non-empty, since an entirely empty fragment fails as InvalidDefinition
first), and count equality is necessary — but not sufficient — for the
parse to succeed. -/
theorem C6_print_count (lines : List String) (st : Nat) (f : String)
    (s₁ : ScanState) (pc : String)
    (hscan : scanLines "restrained" initScan lines = .ok s₁)
    (hpc : s₁.print_content = some pc) :
    (¬(s₁.ret = "" ∧ s₁.cv_names = []) →
        (pySplit pc ",").length ≠ s₁.cv_names.length →
        user_plumed_def lines st f "restrained" = .error .printCvMismatch)
    ∧ (∀ r, user_plumed_def lines st f "restrained" = .ok r →
        (pySplit pc ",").length = s₁.cv_names.length) := by
  constructor
  · intro hne hcnt
    unfold user_plumed_def
    rw [hscan, okBind, if_neg hne, hpc]
    dsimp only
    rw [if_pos rfl, if_pos hcnt]
  · intro r hr
    by_contra hcnt
    unfold user_plumed_def at hr
    rw [hscan, okBind] at hr
    by_cases h0 : (s₁.ret = "" ∧ s₁.cv_names = [])
    · rw [if_pos h0] at hr; cases hr
    · rw [if_neg h0, hpc] at hr
      dsimp only at hr
      rw [if_pos rfl, if_pos hcnt] at hr
      cases hr

/-- C6 witness: a fragment with one captured CV and a two-field directive
fails with the PrintCvMismatch error, by `C6_print_count`. -/
theorem C6_witness :
    user_plumed_def ["a: TORSION ATOMS=1,2,3,4\n", "PRINT ARG=a,b STRIDE=1 FILE=x\n"]
        100 "plm.out" "restrained" = .error .printCvMismatch :=
  (C6_print_count ["a: TORSION ATOMS=1,2,3,4\n", "PRINT ARG=a,b STRIDE=1 FILE=x\n"]
      100 "plm.out"
      ⟨"a: TORSION ATOMS=1,2,3,4\n", ["a"], false, some "PRINT ARG=a,b STRIDE=1 FILE=x\n\n"⟩
      "PRINT ARG=a,b STRIDE=1 FILE=x\n\n" (by decide) rfl).1 (by decide) (by decide)

/-! ## Claim C7 -/

/-- C7: an explicit kappa or at sequence whose length differs from the CV
count makes restraint construction fail with the length-mismatch
assertion, and the error propagates through `make_restraint_plumed`, so no
script is produced. -/
theorem C7_length_mismatch (cvs ks as' : List String) :
    (ks.length ≠ cvs.length → make_restraint_list cvs ks as' = .error .lengthMismatch)
    ∧ (as'.length ≠ cvs.length → make_restraint_list cvs ks as' = .error .lengthMismatch)
    ∧ (∀ (di : DihedralInfo) (cl : List String) (st : Nat) (out method : String)
         (c : List String),
        make_torsion_list_from_file di = .ok (c, cvs) →
        ks.length ≠ cvs.length →
        make_restraint_plumed di cl (.seq ks) (.seq as') st out "torsion" method
          = .error .lengthMismatch) := by
  refine ⟨?_, ?_, ?_⟩
  · intro h
    unfold make_restraint_list
    rw [if_pos (Ne.symm h)]
  · intro h
    unfold make_restraint_list
    by_cases h1 : cvs.length ≠ ks.length
    · rw [if_pos h1]
    · rw [if_neg h1, if_pos (Ne.symm h)]
  · intro di cl st out method c hinfo hlen
    unfold make_restraint_plumed
    rw [if_pos rfl, hinfo, okBind]
    dsimp only
    simp only [broadcast]
    have hm : make_restraint_list cvs ks as' = .error .lengthMismatch := by
      unfold make_restraint_list
      rw [if_pos (Ne.symm hlen)]
    rw [hm, errBind]

/-- C7 witness: a one-element kappa sequence against the two resolved
torsion CVs of the scenario-1 input, through `C7_length_mismatch`. -/
theorem C7_witness :
    make_restraint_plumed c5_dihedral_info [] (.seq ["1"]) (.seq ["1"])
        100 "plm.out" "torsion" "restrained" = .error .lengthMismatch :=
  (C7_length_mismatch ["dih-12-0", "dih-12-1"] ["1"] ["1"]).2.2 c5_dihedral_info []
    100 "plm.out" "restrained"
    ["dih-12-0: TORSION ATOMS=1,2,3,4", "dih-12-1: TORSION ATOMS=5,6,7,8"]
    (by decide) (by decide)

/-! ## Claim C8 -/

/-- C8: parsing a custom CV fragment with method constrained returns an
empty CV-name list, whatever the fragment contains. -/
theorem C8_constrained_empty (lines : List String) (st : Nat) (f : String)
    (r : String × List String × Option String)
    (hr : user_plumed_def lines st f "constrained" = .ok r) : r.2.1 = [] := by
  unfold user_plumed_def at hr
  cases hscan : scanLines "constrained" initScan lines with
  | error e => rw [hscan, errBind] at hr; cases hr
  | ok s =>
    rw [hscan, okBind] at hr
    have hnames : s.cv_names = [] := by
      rcases scan_constrained_names hscan with h' | h'
      · exact h'
      · exact h'
    by_cases h0 : (s.ret = "" ∧ s.cv_names = [])
    · rw [if_pos h0] at hr; cases hr
    · rw [if_neg h0] at hr
      cases hpc : s.print_content with
      | none =>
        rw [hpc] at hr
        dsimp only at hr
        cases hr
        exact hnames
      | some pc =>
        rw [hpc] at hr
        dsimp only at hr
        rw [if_neg (by decide), if_pos rfl] at hr
        cases hrw : rewriteDirective pc st f with
        | error e => rw [hrw, errBind] at hr; cases hr
        | ok pc' =>
          rw [hrw, okBind] at hr
          cases hr
          exact hnames

/-- C8 witness: a fragment with one CV declaration line parsed as
constrained yields the empty CV-name list, by `C8_constrained_empty`. -/
theorem C8_witness :
    user_plumed_def ["a: TORSION ATOMS=1,2,3,4\n"] 100 "x" "constrained"
      = .ok ("a: TORSION ATOMS=1,2,3,4\n", [], none)
    ∧ (("a: TORSION ATOMS=1,2,3,4\n", ([] : List String),
        (none : Option String)).2.1 = []) :=
  ⟨by decide,
   C8_constrained_empty ["a: TORSION ATOMS=1,2,3,4\n"] 100 "x" _ (by decide)⟩

end RidKit
